import Mathlib

/-!
Verification development for the obsidian-revisionist plugin AI core.

The definitions below are a shallow embedding of the TypeScript sources:
`src/ai/models.ts` (provider enum, model catalog, lookup utilities),
`src/ai/baseAdapter.ts` (generateResponse, testConnection, isReady,
getApiModelName, handleError), `src/ai/openRouter.ts` (message assembly),
`src/ai/openAI.ts` (testConnection), `src/config.ts` (prompt templates)
and `src/main.ts` (calculateApproximateCost).

JavaScript numbers are embedded as rationals, optional fields as `Option`,
thrown exceptions as `Except` over an explicit error type, and the network
transport as an oracle function supplied per call.  Functions that count
transport invocations return `Bool × Nat` (result, number of network calls).
-/

namespace Revisionist

/-- Embeds the `AIProvider` enum of `src/ai/models.ts`
(`openrouter`, `lmstudio`). -/
inductive AIProvider where
  | openRouter
  | lmStudio
deriving DecidableEq

/-- The string value of each enum member, used in error messages. -/
def providerId : AIProvider → String
  | .openRouter => "openrouter"
  | .lmStudio => "lmstudio"

/-- Embeds the optional `capabilities` object of an `AIModel`. -/
structure ModelCapabilities where
  maxTokens : Option Nat := none
  supportsFunctions : Option Bool := none
  supportsStreaming : Option Bool := none
  supportsVision : Option Bool := none
deriving DecidableEq

/-- Embeds the `AIModel` interface of `src/ai/models.ts`. -/
structure AIModel where
  name : String
  apiName : String
  capabilities : Option ModelCapabilities := none
  inputCostPer1M : Option ℚ := none
  outputCostPer1M : Option ℚ := none
  contextWindow : Option Nat := none
deriving DecidableEq

def claude35Haiku : AIModel :=
  { name := "Claude 3.5 Haiku", apiName := "anthropic/claude-3.5-haiku",
    capabilities := some { maxTokens := some 8192, supportsFunctions := some true,
                           supportsStreaming := some true },
    inputCostPer1M := some 1.00, outputCostPer1M := some 1.00,
    contextWindow := some 200000 }

def claude35Sonnet : AIModel :=
  { name := "Anthropic Claude 3.5 Sonnet", apiName := "anthropic/claude-3.5-sonnet",
    capabilities := some { maxTokens := some 8192, supportsFunctions := some true,
                           supportsStreaming := some true, supportsVision := some true },
    inputCostPer1M := some 3.00, outputCostPer1M := some 15.00,
    contextWindow := some 200000 }

def geminiFlash15 : AIModel :=
  { name := "Google Gemini Flash 1.5", apiName := "google/gemini-flash-1.5",
    capabilities := some { maxTokens := some 8192, supportsStreaming := some true },
    inputCostPer1M := some 0.075, outputCostPer1M := some 0.30,
    contextWindow := some 1000000 }

def geminiFlash15_8B : AIModel :=
  { name := "Google Gemini Flash 1.5 8B", apiName := "google/gemini-flash-1.5-8b",
    capabilities := some { maxTokens := some 8192, supportsStreaming := some true },
    inputCostPer1M := some 0.0375, outputCostPer1M := some 0.15,
    contextWindow := some 1000000 }

def geminiPro15 : AIModel :=
  { name := "Google Gemini Pro 1.5", apiName := "google/gemini-pro-1.5",
    capabilities := some { maxTokens := some 8192, supportsStreaming := some true,
                           supportsVision := some true },
    inputCostPer1M := some 1.25, outputCostPer1M := some 5.00,
    contextWindow := some 2000000 }

def mistralLarge : AIModel :=
  { name := "Mistral Large", apiName := "mistralai/mistral-large-2407",
    capabilities := some { maxTokens := some 128000, supportsStreaming := some true },
    inputCostPer1M := some 2.00, outputCostPer1M := some 6.00,
    contextWindow := some 128000 }

def gpt4oNov : AIModel :=
  { name := "OpenAI 4o", apiName := "openai/gpt-4o-2024-11-20",
    capabilities := some { maxTokens := some 16000, supportsFunctions := some true,
                           supportsStreaming := some true, supportsVision := some true },
    inputCostPer1M := some 2.50, outputCostPer1M := some 10.00,
    contextWindow := some 128000 }

def gpt4oMini : AIModel :=
  { name := "OpenAI 4o Mini", apiName := "openai/gpt-4o-mini",
    capabilities := some { maxTokens := some 16000, supportsFunctions := some true,
                           supportsStreaming := some true },
    inputCostPer1M := some 0.15, outputCostPer1M := some 0.60,
    contextWindow := some 128000 }

def gptO1Mini : AIModel :=
  { name := "OpenAI o1 Mini", apiName := "openai/gpt-o1-mini",
    capabilities := some { maxTokens := some 66000, supportsFunctions := some true,
                           supportsStreaming := some true },
    inputCostPer1M := some 3.00, outputCostPer1M := some 12.00,
    contextWindow := some 128000 }

def gptO1Preview : AIModel :=
  { name := "OpenAI o1 Preview", apiName := "openai/gpt-o1-preview",
    capabilities := some { maxTokens := some 33000, supportsFunctions := some true,
                           supportsStreaming := some true },
    inputCostPer1M := some 15.00, outputCostPer1M := some 60.00,
    contextWindow := some 128000 }

def customModel : AIModel :=
  { name := "Custom", apiName := "custom",
    capabilities := some { supportsStreaming := some false } }

/-- Embeds `AIModelMap` of `src/ai/models.ts`: the static catalog, one
ordered list of models per provider (declaration order preserved). -/
def AIModelMap : AIProvider → List AIModel
  | .openRouter =>
      [claude35Haiku, claude35Sonnet, geminiFlash15, geminiFlash15_8B, geminiPro15,
       mistralLarge, gpt4oNov, gpt4oMini, gptO1Mini, gptO1Preview]
  | .lmStudio => [customModel]

namespace AIModelUtils

/-- Embeds `AIModelUtils.getModelByApiName`: scans the providers in the
declaration order of the object (OpenRouter first, then LMStudio) and returns
the first model whose `apiName` matches. -/
def getModelByApiName (apiName : String) : Option AIModel :=
  [AIProvider.openRouter, AIProvider.lmStudio].findSome?
    (fun p => (AIModelMap p).find? (fun m => m.apiName == apiName))

/-- Embeds `AIModelUtils.getModelsForProvider` (the `|| []` branch of the
source is unreachable because the record is total over the enum). -/
def getModelsForProvider (provider : AIProvider) : List AIModel :=
  AIModelMap provider

/-- Embeds `AIModelUtils.getDefaultModelForProvider`: `models?.[0]`. -/
def getDefaultModelForProvider (provider : AIProvider) : Option AIModel :=
  (AIModelMap provider).head?

end AIModelUtils

/-- Thrown JavaScript values, as inspected by `handleError`
(message of an Error instance, else the fixed unknown-error text):
either an `Error` object carrying a message, or any other thrown value. -/
inductive JSError where
  | err (message : String)
  | nonError
deriving DecidableEq

/-- The message `handleError` extracts from a thrown value. -/
def jsErrorMessage : JSError → String
  | .err m => m
  | .nonError => "Unknown error occurred"

/-- Embeds the `TokenCount` interface of `src/ai/baseAdapter.ts`. -/
structure TokenCount where
  input : Nat
  output : Nat
  total : Nat
deriving DecidableEq

/-- Embeds the parameter object passed to `makeApiRequest`
(`APIRequestParams`, including the optional `isTest` flag of the later
adapter revision). -/
structure APIRequestParams where
  model : String
  prompt : String
  temperature : ℚ
  maxTokens : Nat
  rawResponse : Option Bool := none
  selectedText : Option String := none
  isTest : Option Bool := none

/-- Embeds the `APIResponse<string>` result shape of
`src/ai/baseAdapter.ts`: `success`, `data`, optional `tokens`, optional
`error`.  Note the source type has no error-kind field. -/
structure APIResponse where
  success : Bool
  data : String
  tokens : Option TokenCount := none
  error : Option String := none
deriving DecidableEq

/-- Embeds `AIResponseOptions` as passed to `generateResponse`. -/
structure GenOptions where
  temperature : Option ℚ := none
  maxTokens : Option Nat := none
  rawResponse : Option Bool := none
  selectedText : Option String := none
deriving DecidableEq

/-- JavaScript `x OR-ELSE d` on an optional string: an absent or empty
string is falsy and yields the default. -/
def jsOrString : Option String → String → String
  | none, d => d
  | some s, d => if s = "" then d else s

/-- JavaScript truthiness of an optional boolean (`params.isTest ?`). -/
def jsTruthy : Option Bool → Bool
  | some true => true
  | _ => false

/-- Embeds `BaseAdapter.getApiModelName`: return the requested identifier
when it resolves in the model list of the adapter, otherwise
`this.models[0]?.apiName || modelApiName`. -/
def getApiModelName (models : List AIModel) (modelApiName : String) : String :=
  match models.find? (fun m => m.apiName == modelApiName) with
  | some m => m.apiName
  | none =>
      match models.head? with
      | some m0 => if m0.apiName = "" then modelApiName else m0.apiName
      | none => modelApiName

/-- Embeds `BaseAdapter.isReady`:
`(!!this.apiKey || provider === LMStudio) && this.models.length > 0`. -/
def isReady (provider : AIProvider) (apiKey : String) (models : List AIModel) : Bool :=
  (!(apiKey == "") || (provider == AIProvider.lmStudio)) && decide (0 < models.length)

/-- Embeds `BaseAdapter.handleError`: builds the uniform failure result
`success=false, empty data, the message in the error field` (the UI `Notice` side
effect is outside the embedding). -/
def handleError (provider : AIProvider) (e : JSError) : APIResponse :=
  { success := false, data := "", tokens := none, error := some (jsErrorMessage e) }

/-- The `try` block of `BaseAdapter.generateResponse`, instrumented with
the number of transport invocations.  The abstract
`makeApiRequest` / `extractContentFromResponse` / `extractTokenCounts`
are supplied as oracles over an abstract wire-response type `ρ`; each may
throw.  Mirrors the source statement by statement: model resolution, the
`!apiModel` throw, the API-key check (skipped for LMStudio), option
defaulting (`temperature ?? 0.7`, `maxTokens ?? 1000`,
empty-string defaulting of selectedText), then the single transport call and the two
extractions. -/
def generateRun {ρ : Type} (provider : AIProvider) (apiKey : String)
    (models : List AIModel)
    (transport : APIRequestParams → Except JSError ρ)
    (extractContent : ρ → Except JSError String)
    (extractTokenCounts : ρ → Except JSError TokenCount)
    (prompt modelApiName : String) (options : Option GenOptions) :
    Except JSError APIResponse × Nat :=
  let apiModel := getApiModelName models modelApiName
  if apiModel = "" then
    (Except.error (JSError.err ("No valid model found for " ++ providerId provider)), 0)
  else if apiKey = "" ∧ provider ≠ AIProvider.lmStudio then
    (Except.error (JSError.err (providerId provider ++ " API key is not set")), 0)
  else
    let temperature := (options.bind GenOptions.temperature).getD 0.7
    let maxTokens := (options.bind GenOptions.maxTokens).getD 1000
    match transport { model := apiModel, prompt := prompt, temperature := temperature,
                      maxTokens := maxTokens,
                      rawResponse := options.bind GenOptions.rawResponse,
                      selectedText :=
                        some (jsOrString (options.bind GenOptions.selectedText) "") } with
    | Except.error e => (Except.error e, 1)
    | Except.ok resp =>
        match extractContent resp with
        | Except.error e => (Except.error e, 1)
        | Except.ok content =>
            match extractTokenCounts resp with
            | Except.error e => (Except.error e, 1)
            | Except.ok tokens =>
                (Except.ok { success := true, data := content, tokens := some tokens }, 1)

/-- Embeds `BaseAdapter.generateResponse`: the `try` block above with the
surrounding `catch` that routes every thrown value through
`handleError`.  Total by construction: it always returns an
`APIResponse`, never an exception. -/
def generateResponse {ρ : Type} (provider : AIProvider) (apiKey : String)
    (models : List AIModel)
    (transport : APIRequestParams → Except JSError ρ)
    (extractContent : ρ → Except JSError String)
    (extractTokenCounts : ρ → Except JSError TokenCount)
    (prompt modelApiName : String) (options : Option GenOptions) : APIResponse :=
  match (generateRun provider apiKey models transport extractContent extractTokenCounts
          prompt modelApiName options).1 with
  | Except.ok r => r
  | Except.error e => handleError provider e

/-- The slice of the raw HTTP response that the final
`BaseAdapter.testConnection` inspects: `response.status` and
`response.json?.choices?.[0]?.message?.content` (absent when any link of
the optional chain is missing). -/
structure WireResponse where
  status : Int
  content : Option String
deriving DecidableEq

/-- JavaScript double-negation truthiness of the content field: absent and empty are falsy. -/
def contentTruthy : Option String → Bool
  | none => false
  | some s => !(s == "")

/-- Embeds the final revision of `BaseAdapter.testConnection`: returns
`false` when the adapter is not ready (before any network call), probes
with the fixed Hi prompt, the head model identifier (or empty), temperature 0.7,
maxTokens 10, rawResponse and isTest set, catches every throw as
`false`, and otherwise returns
`status === 200 && !!json.choices[0].message.content`.
Second component counts transport invocations. -/
def testConnection (provider : AIProvider) (apiKey : String)
    (models : List AIModel)
    (transport : APIRequestParams → Except JSError WireResponse) : Bool × Nat :=
  if isReady provider apiKey models = false then (false, 0)
  else
    match transport { model := jsOrString ((models.head?).map AIModel.apiName) "",
                      prompt := "Hi", temperature := 0.7, maxTokens := 10,
                      rawResponse := some true, isTest := some true } with
    | Except.error _ => (false, 1)
    | Except.ok r => ((r.status == 200) && contentTruthy r.content, 1)

/-- Lower-cases a string character by character
(JavaScript `toLowerCase` restricted to the ASCII range used here). -/
def lowerChars (s : String) : String :=
  String.mk (s.data.map Char.toLower)

/-- JavaScript `haystack.includes(needle)` on character lists. -/
def charsContain : List Char → List Char → Bool
  | pat, [] => pat.isEmpty
  | pat, c :: rest => pat.isPrefixOf (c :: rest) || charsContain pat rest

/-- Embeds the earlier revision of `BaseAdapter.testConnection`: calls
`generateResponse` with the fixed OK-probe prompt against
`this.models[0].apiName` (a throw on an empty model list is caught as
`false`), then requires `response.success` and
that the lower-cased response text contain the substring ok.
Second component counts transport invocations. -/
def testConnectionV1 {ρ : Type} (provider : AIProvider) (apiKey : String)
    (models : List AIModel)
    (transport : APIRequestParams → Except JSError ρ)
    (extractContent : ρ → Except JSError String)
    (extractTokenCounts : ρ → Except JSError TokenCount) : Bool × Nat :=
  if isReady provider apiKey models = false then (false, 0)
  else
    match models with
    | [] => (false, 0)
    | m :: _ =>
        let run := generateRun provider apiKey models transport extractContent
          extractTokenCounts "Return the word \x27OK\x27." m.apiName
          (some { rawResponse := some true, selectedText := some "" })
        let response :=
          match run.1 with
          | Except.ok r => r
          | Except.error e => handleError provider e
        (response.success && charsContain "ok".toList (lowerChars response.data).data, run.2)

/-- The slice of the OpenAI SDK response used by `OpenAIAdapter`. -/
structure OpenAIResponse where
  id : String := ""
  output_text : String := ""
deriving DecidableEq

/-- The request object `OpenAIAdapter.testConnection` sends through
`client.responses.create`. -/
structure OpenAIProbeRequest where
  model : String
  input : String
  max_output_tokens : Nat
deriving DecidableEq

/-- `BaseAdapter.isReady` as inherited by `OpenAIAdapter`: the provider is
`openai` (a hosted provider, not LMStudio), so readiness is a non-empty
API key and a non-empty model list. -/
def isReadyOpenAI (apiKey : String) (models : List AIModel) : Bool :=
  (!(apiKey == "")) && decide (0 < models.length)

/-- Embeds `OpenAIAdapter.testConnection`: returns `false` when not
ready (before any network call), then issues the fixed probe
(the fixed nano test model, input Hi, max_output_tokens 25)
through the SDK and returns `true` whenever that call returns without
throwing — the returned text is not inspected.  Throws are caught as
`false`.  Second component counts SDK invocations. -/
def openAITestConnection (apiKey : String) (models : List AIModel)
    (create : OpenAIProbeRequest → Except JSError OpenAIResponse) : Bool × Nat :=
  if isReadyOpenAI apiKey models = false then (false, 0)
  else
    match create { model := "gpt-4.1-nano-2025-04-14", input := "Hi",
                   max_output_tokens := 25 } with
    | Except.error _ => (false, 1)
    | Except.ok _ => (true, 1)

def gpt4oOA : AIModel :=
  { name := "GPT-4o", apiName := "gpt-4o",
    capabilities := some { maxTokens := some 4096, supportsFunctions := some true,
                           supportsStreaming := some true, supportsVision := some true },
    inputCostPer1M := some 10.00, outputCostPer1M := some 30.00,
    contextWindow := some 128000 }

def gpt4oMiniOA : AIModel :=
  { name := "GPT-4o-mini", apiName := "gpt-4o-mini",
    capabilities := some { maxTokens := some 4096, supportsFunctions := some true,
                           supportsStreaming := some true },
    inputCostPer1M := some 0.50, outputCostPer1M := some 1.50,
    contextWindow := some 128000 }

def gpt41OA : AIModel :=
  { name := "GPT-4.1", apiName := "gpt-4.1-2025-04-14",
    capabilities := some { maxTokens := some 4096, supportsFunctions := some true,
                           supportsStreaming := some true, supportsVision := some true },
    inputCostPer1M := some 2.00, outputCostPer1M := some 8.00,
    contextWindow := some 1000000 }

def gpt41MiniOA : AIModel :=
  { name := "GPT-4.1-mini", apiName := "gpt-4.1-mini-2025-04-14",
    capabilities := some { maxTokens := some 4096, supportsFunctions := some true,
                           supportsStreaming := some true },
    inputCostPer1M := some 0.40, outputCostPer1M := some 1.60,
    contextWindow := some 1000000 }

def gpt41NanoOA : AIModel :=
  { name := "GPT-4.1-nano", apiName := "gpt-4.1-nano-2025-04-14",
    capabilities := some { maxTokens := some 4096, supportsFunctions := some true,
                           supportsStreaming := some true },
    inputCostPer1M := some 0.10, outputCostPer1M := some 0.40,
    contextWindow := some 1000000 }

/-- The `AIModelMap[AIProvider.OpenAI]` slice of the newer `models.ts`
revision that introduces the `openai` provider; the field `this.models` of the
`OpenAIAdapter` is initialized to this list. -/
def openAIModels : List AIModel :=
  [gpt4oOA, gpt4oMiniOA, gpt41OA, gpt41MiniOA, gpt41NanoOA]

namespace CONFIG
namespace PROMPTS

/-- Embeds `CONFIG.PROMPTS.SYSTEM` of `src/config.ts`: the fixed
style-preserving system directive. -/
def SYSTEM : String :=
  "# MISSION\nAct as a professional ghostwriter and editing assistant, who specializes in text revision and improvement while mimicking the style of the original author.\n\n# RESPONSIBILITY\nYou will be provided with some instructions and a selection of text. You will transform this text with the author instructions maintaining the tone, intent, and style as best you can while incorporating the edits.\n\n#GUIDELINES\n- Reply with ONLY the edited text, nothing before or after, so it is simple to paste the revision into the original document.\n- Maintain the length of the given text, unless asked to make it shorter or longer by the author.\n- Maintain the style and tone of the provided text in your revision unless otherwise stated by the author"

/-- Embeds `CONFIG.PROMPTS.formatUserPrompt` of `src/config.ts`: the
user-turn template interpolating, in order, the full note, the selected
text, and the instructions. -/
def formatUserPrompt (instructions selectedText fullNote : String) : String :=
  "\nRevise the following text based on the following\n\n## Full Document\n"
    ++ fullNote
    ++ "\n\n## Text to revise\n"
    ++ selectedText
    ++ "\n\n## Instructions\n"
    ++ instructions
    ++ "\n"

end PROMPTS
end CONFIG

/-- A chat message of the OpenRouter request body. -/
structure ChatMessage where
  role : String
  content : String
deriving DecidableEq

/-- Embeds the `messages` construction of
`OpenRouterAdapter.makeApiRequest` (the revision carrying `isTest`): a
probe sends the raw prompt as the single user message; a real request
sends the system directive plus the templated user turn built from
`params.prompt`, empty-defaulted `params.selectedText` and `params.fullNote`. -/
def openRouterMessages (isTest : Option Bool) (prompt : String)
    (selectedText : Option String) (fullNote : String) : List ChatMessage :=
  if jsTruthy isTest then [{ role := "user", content := prompt }]
  else
    [{ role := "system", content := CONFIG.PROMPTS.SYSTEM },
     { role := "user",
       content := CONFIG.PROMPTS.formatUserPrompt prompt
         (jsOrString selectedText "") fullNote }]

/-- The token-usage record `main.ts` feeds into cost calculation. -/
structure TokenUsage where
  input : ℚ
  output : ℚ
deriving DecidableEq

/-- The cost record returned by `calculateApproximateCost`. -/
structure CostBreakdown where
  input : ℚ
  output : ℚ
  total : ℚ
deriving DecidableEq

/-- Embeds `AIRevisionPlugin.calculateApproximateCost` of `src/main.ts`:
resolves the model through the catalog, returns `undefined` when the
model is unknown or either per-million price is falsy (absent or zero),
and otherwise computes `tokens / 1_000_000 * price` per direction with
their exact sum, with no rounding. -/
def calculateApproximateCost (tokens : TokenUsage) (modelName : String) :
    Option CostBreakdown :=
  match AIModelUtils.getModelByApiName modelName with
  | none => none
  | some model =>
      match model.inputCostPer1M, model.outputCostPer1M with
      | some ip, some op =>
          if ip = 0 ∨ op = 0 then none
          else
            let inputCost := tokens.input / 1000000 * ip
            let outputCost := tokens.output / 1000000 * op
            some { input := inputCost, output := outputCost,
                   total := inputCost + outputCost }
      | _, _ => none

/-! ### Helper lemmas -/

/-- A model returned by the `find?` inside the lookups carries the
searched identifier. -/
theorem apiName_of_found {models : List AIModel} {id : String} {m : AIModel}
    (h : models.find? (fun x => x.apiName == id) = some m) : m.apiName = id := by
  have := List.find?_some h
  simpa using this

/-- Round-trip lookup over the concrete catalog, shared by several
results below. -/
theorem getModelByApiName_mem (p : AIProvider) (m : AIModel)
    (hm : m ∈ AIModelMap p) :
    AIModelUtils.getModelByApiName m.apiName = some m := by
  cases p with
  | openRouter =>
      simp only [AIModelMap, List.mem_cons, List.not_mem_nil, or_false] at hm
      rcases hm with rfl | rfl | rfl | rfl | rfl | rfl | rfl | rfl | rfl | rfl <;> rfl
  | lmStudio =>
      simp only [AIModelMap, List.mem_cons, List.not_mem_nil, or_false] at hm
      rcases hm with rfl
      rfl

/-- On a non-empty model list whose head has a non-empty identifier, an
unresolved lookup falls back to the identifier of the head. -/
theorem getApiModelName_of_none {models : List AIModel} {id : String}
    {m0 : AIModel} {rest : List AIModel}
    (hmodels : models = m0 :: rest) (hne : m0.apiName ≠ "")
    (hnone : models.find? (fun x => x.apiName == id) = none) :
    getApiModelName models id = m0.apiName := by
  subst hmodels
  simp [getApiModelName, hnone, hne]

/-! ### Claims -/

/-- Claim C1: for every request model identifier addressed to an adapter
whose model list is the catalog slice of the provider, `getApiModelName`
returns the identifier unchanged when it resolves to a model of that
provider, and otherwise substitutes the `apiName` of the first
catalog entry of the provider. -/
theorem getApiModelName_fallback_c1 :
    ∀ (p : AIProvider) (id : String),
      (∀ m, (AIModelMap p).find? (fun x => x.apiName == id) = some m →
        getApiModelName (AIModelMap p) id = id)
      ∧ (∀ m0, (AIModelMap p).find? (fun x => x.apiName == id) = none →
          (AIModelMap p).head? = some m0 →
          getApiModelName (AIModelMap p) id = m0.apiName) := by
  intro p id
  constructor
  · intro m hm
    have hname := apiName_of_found hm
    simp [getApiModelName, hm, hname]
  · intro m0 hnone hhead
    cases p with
    | openRouter =>
        have hm0 : m0 = claude35Haiku := by
          simp only [AIModelMap, List.head?_cons, Option.some.injEq] at hhead
          exact hhead.symm
        subst hm0
        exact getApiModelName_of_none rfl (by decide) hnone
    | lmStudio =>
        have hm0 : m0 = customModel := by
          simp only [AIModelMap, List.head?_cons, Option.some.injEq] at hhead
          exact hhead.symm
        subst hm0
        exact getApiModelName_of_none rfl (by decide) hnone

/-- Witness for C1: a resolving identifier is returned unchanged, an
unknown identifier is replaced by the first OpenRouter catalog entry. -/
theorem getApiModelName_fallback_c1_witness :
    getApiModelName (AIModelMap AIProvider.openRouter) "anthropic/claude-3.5-sonnet"
        = "anthropic/claude-3.5-sonnet"
    ∧ getApiModelName (AIModelMap AIProvider.openRouter) "no-such-model"
        = "anthropic/claude-3.5-haiku" := by
  constructor
  · exact (getApiModelName_fallback_c1 AIProvider.openRouter
      "anthropic/claude-3.5-sonnet").1 claude35Sonnet rfl
  · exact (getApiModelName_fallback_c1 AIProvider.openRouter
      "no-such-model").2 claude35Haiku rfl rfl

/-- Claim C2: every catalog model is returned by looking it up with its
own API identifier: `getModelByApiName(m.apiName) = m`. -/
theorem getModelByApiName_roundtrip_c2 :
    ∀ (p : AIProvider) (m : AIModel), m ∈ AIModelMap p →
      AIModelUtils.getModelByApiName m.apiName = some m := by
  intro p m hm
  exact getModelByApiName_mem p m hm

/-- Witness for C2: the round trip at the LMStudio entry, whose lookup
must scan past the whole OpenRouter list first. -/
theorem getModelByApiName_roundtrip_c2_witness :
    AIModelUtils.getModelByApiName "custom" = some customModel := by
  exact getModelByApiName_roundtrip_c2 AIProvider.lmStudio customModel
    (by simp [AIModelMap])

/-- Claim C9: the model list of every provider is non-empty and its default
model is the first element of that list. -/
theorem defaultModel_head_c9 :
    ∀ p : AIProvider,
      (AIModelUtils.getModelsForProvider p).isEmpty = false
      ∧ AIModelUtils.getDefaultModelForProvider p
          = (AIModelUtils.getModelsForProvider p).head? := by
  intro p
  cases p <;> exact ⟨rfl, rfl⟩

/-- Claim C10: `getApiModelName` is total (it always returns a string by
type), and with an empty model list the fallback is the input identifier
itself, unchanged. -/
theorem getApiModelName_total_c10 :
    ∀ id : String, getApiModelName [] id = id := by
  intro id
  rfl

/-- Claim C6: a probe request (`isTest` true) sends exactly one user
message whose content is the raw instructions string — no system
directive and no user-prompt template appear in the wire messages. -/
theorem probeMessages_raw_c6 :
    ∀ (instructions : String) (selectedText : Option String) (fullNote : String),
      openRouterMessages (some true) instructions selectedText fullNote
        = [{ role := "user", content := instructions }] := by
  intro i s f
  rfl

/-- Claim C5: a non-probe request (`isTest` false) sends the system
directive plus a user turn that contains, in order, the full note text,
then the selected text verbatim, then the instructions verbatim. -/
theorem userTurn_order_c5 :
    ∀ (instructions selectedText fullNote : String),
      ∃ a b c d : String,
        openRouterMessages (some false) instructions (some selectedText) fullNote
          = [{ role := "system", content := CONFIG.PROMPTS.SYSTEM },
             { role := "user",
               content := a ++ fullNote ++ b ++ selectedText ++ c ++ instructions ++ d }] := by
  intro i s f
  refine ⟨"\nRevise the following text based on the following\n\n## Full Document\n",
          "\n\n## Text to revise\n", "\n\n## Instructions\n", "\n", ?_⟩
  have hs : jsOrString (some s) "" = s := by
    unfold jsOrString
    split <;> simp_all
  simp [openRouterMessages, jsTruthy, CONFIG.PROMPTS.formatUserPrompt, hs]

/-- Every price published in the catalog is non-zero, so the JavaScript
falsy check on prices coincides with presence of a price. -/
theorem catalog_prices_nonzero (p : AIProvider) (m : AIModel)
    (hm : m ∈ AIModelMap p) (q : ℚ)
    (hq : m.inputCostPer1M = some q ∨ m.outputCostPer1M = some q) : q ≠ 0 := by
  cases p with
  | openRouter =>
      simp only [AIModelMap, List.mem_cons, List.not_mem_nil, or_false] at hm
      rcases hm with rfl | rfl | rfl | rfl | rfl | rfl | rfl | rfl | rfl | rfl <;>
        rcases hq with h | h <;>
        · simp only [claude35Haiku, claude35Sonnet, geminiFlash15, geminiFlash15_8B,
            geminiPro15, mistralLarge, gpt4oNov, gpt4oMini, gptO1Mini, gptO1Preview,
            Option.some.injEq] at h
          subst h
          norm_num
  | lmStudio =>
      simp only [AIModelMap, List.mem_cons, List.not_mem_nil, or_false] at hm
      rcases hm with rfl
      rcases hq with h | h <;> simp [customModel] at h

/-- The cost formula once the model resolves with two non-zero prices. -/
theorem cost_formula_of_resolved (tokens : TokenUsage) (id : String)
    (model : AIModel) (ip op : ℚ)
    (hres : AIModelUtils.getModelByApiName id = some model)
    (hip : model.inputCostPer1M = some ip) (hop : model.outputCostPer1M = some op)
    (hip0 : ip ≠ 0) (hop0 : op ≠ 0) :
    calculateApproximateCost tokens id
      = some { input := tokens.input / 1000000 * ip,
               output := tokens.output / 1000000 * op,
               total := tokens.input / 1000000 * ip + tokens.output / 1000000 * op } := by
  simp [calculateApproximateCost, hres, hip, hop, hip0, hop0]

/-- Claim C3: the cost estimate is absent exactly when the identifier
does not resolve or the resolved model lacks a published price, and
otherwise equals `tokens / 1_000_000 * pricePerMillion` per direction
with the total their exact sum, with no internal rounding. -/
theorem calculateApproximateCost_spec_c3 :
    (∀ (tokens : TokenUsage) (id : String),
        AIModelUtils.getModelByApiName id = none →
        calculateApproximateCost tokens id = none)
    ∧ (∀ (tokens : TokenUsage) (p : AIProvider) (model : AIModel),
        model ∈ AIModelMap p →
        (model.inputCostPer1M = none ∨ model.outputCostPer1M = none) →
        calculateApproximateCost tokens model.apiName = none)
    ∧ (∀ (tokens : TokenUsage) (p : AIProvider) (model : AIModel) (ip op : ℚ),
        model ∈ AIModelMap p →
        model.inputCostPer1M = some ip → model.outputCostPer1M = some op →
        calculateApproximateCost tokens model.apiName
          = some { input := tokens.input / 1000000 * ip,
                   output := tokens.output / 1000000 * op,
                   total := tokens.input / 1000000 * ip
                            + tokens.output / 1000000 * op }) := by
  refine ⟨?_, ?_, ?_⟩
  · intro tokens id h
    simp [calculateApproximateCost, h]
  · intro tokens p model hm hmiss
    have hres := getModelByApiName_mem p model hm
    rcases hmiss with h | h <;> simp [calculateApproximateCost, hres, h]
  · intro tokens p model ip op hm hip hop
    exact cost_formula_of_resolved tokens model.apiName model ip op
      (getModelByApiName_mem p model hm) hip hop
      (catalog_prices_nonzero p model hm ip (Or.inl hip))
      (catalog_prices_nonzero p model hm op (Or.inr hop))

/-- Witness for C3: one million input tokens on the $3/$15 Sonnet model
cost exactly $3 input, $0 output, $3 total; the unpriced LMStudio model
and an unknown identifier both yield an absent estimate. -/
theorem calculateApproximateCost_c3_witness :
    calculateApproximateCost { input := 1000000, output := 0 }
        "anthropic/claude-3.5-sonnet"
      = some { input := 3, output := 0, total := 3 }
    ∧ calculateApproximateCost { input := 5, output := 7 } "custom" = none
    ∧ calculateApproximateCost { input := 5, output := 7 } "no-such-model" = none := by
  refine ⟨?_, ?_, ?_⟩
  · have h := calculateApproximateCost_spec_c3.2.2
      { input := 1000000, output := 0 } AIProvider.openRouter claude35Sonnet
      3.00 15.00 (by simp [AIModelMap]) rfl rfl
    rw [show ("anthropic/claude-3.5-sonnet") = claude35Sonnet.apiName from rfl, h]
    norm_num
  · exact calculateApproximateCost_spec_c3.2.1 { input := 5, output := 7 }
      AIProvider.lmStudio customModel (by simp [AIModelMap]) (Or.inl rfl)
  · exact calculateApproximateCost_spec_c3.1 { input := 5, output := 7 }
      "no-such-model" rfl

/-- Claim C4 (amended): `generateResponse` is total — it returns an
`APIResponse`, never an exception — and every internal failure,
including a transport failure, is caught and returned as
`success=false, empty data, the message in the error field`; a failing transport on a
configured adapter with a resolvable model yields exactly that tagged result
with the message of the transport error. -/
theorem generateResponse_failure_tagged_c4 :
    (∀ {ρ : Type} (provider : AIProvider) (apiKey : String) (models : List AIModel)
        (transport : APIRequestParams → Except JSError ρ)
        (extractContent : ρ → Except JSError String)
        (extractTokenCounts : ρ → Except JSError TokenCount)
        (prompt modelApiName : String) (options : Option GenOptions) (e : JSError),
        (generateRun provider apiKey models transport extractContent extractTokenCounts
            prompt modelApiName options).1 = Except.error e →
        generateResponse provider apiKey models transport extractContent
            extractTokenCounts prompt modelApiName options
          = { success := false, data := "", tokens := none,
              error := some (jsErrorMessage e) })
    ∧ (∀ {ρ : Type} (provider : AIProvider) (apiKey : String) (models : List AIModel)
        (extractContent : ρ → Except JSError String)
        (extractTokenCounts : ρ → Except JSError TokenCount)
        (prompt modelApiName : String) (options : Option GenOptions) (msg : String),
        getApiModelName models modelApiName ≠ "" →
        (apiKey ≠ "" ∨ provider = AIProvider.lmStudio) →
        generateResponse provider apiKey models
            (fun _ => Except.error (JSError.err msg)) extractContent
            extractTokenCounts prompt modelApiName options
          = { success := false, data := "", tokens := none, error := some msg }) := by
  constructor
  · intro ρ provider apiKey models transport extractContent extractTokenCounts
      prompt modelApiName options e h
    simp [generateResponse, h, handleError]
  · intro ρ provider apiKey models extractContent extractTokenCounts
      prompt modelApiName options msg hmodel hkey
    have hkey2 : ¬(apiKey = "" ∧ provider ≠ AIProvider.lmStudio) := by
      rcases hkey with h | h
      · exact fun hc => h hc.1
      · exact fun hc => hc.2 h
    simp [generateResponse, generateRun, hmodel, hkey2, handleError, jsErrorMessage]

/-- Witness for C4: a connection-refused transport failure against a
properly configured OpenRouter adapter comes back as the tagged failure
result carrying the message of the transport error. -/
theorem generateResponse_failure_tagged_c4_witness :
    generateResponse AIProvider.openRouter "key" (AIModelMap AIProvider.openRouter)
        (fun _ => Except.error (JSError.err "connection refused"))
        (fun (_ : Unit) => Except.ok "")
        (fun _ => Except.ok { input := 0, output := 0, total := 0 })
        "p" "anthropic/claude-3.5-haiku" none
      = { success := false, data := "", tokens := none,
          error := some "connection refused" } := by
  exact generateResponse_failure_tagged_c4.2 AIProvider.openRouter "key"
    (AIModelMap AIProvider.openRouter) (fun (_ : Unit) => Except.ok "")
    (fun _ => Except.ok { input := 0, output := 0, total := 0 })
    "p" "anthropic/claude-3.5-haiku" none "connection refused"
    (by decide) (Or.inl (by decide))

/-- Counterexample to C4 as stated: the failure result carries no
`errorKind` classification.  A transport failure (the `makeApiRequest`
oracle throws) and a malformed-response failure (the transport succeeds
but `extractContentFromResponse` throws) with the same message produce
identical `APIResponse` values, so the result cannot tag transport
failures as `TransportFailure`; the source result type has only
`success`, `data`, `tokens` and `error` fields. -/
theorem generateResponse_no_errorKind_c4 :
    generateResponse AIProvider.openRouter "key" (AIModelMap AIProvider.openRouter)
        (fun _ => Except.error (JSError.err "boom"))
        (fun (_ : Unit) => Except.ok "fine")
        (fun _ => Except.ok { input := 0, output := 0, total := 0 })
        "p" "anthropic/claude-3.5-haiku" none
      = generateResponse AIProvider.openRouter "key" (AIModelMap AIProvider.openRouter)
          (fun _ => Except.ok ())
          (fun _ => Except.error (JSError.err "boom"))
          (fun _ => Except.ok { input := 0, output := 0, total := 0 })
          "p" "anthropic/claude-3.5-haiku" none := by
  rfl

/-- Claim C7 (amended): no `testConnection` variant throws, and each maps
internal failures to `false`; but the success conditions differ per
variant.  The final `BaseAdapter` variant returns `true` iff the probe
response has HTTP status 200 and a non-empty message content; the
earlier variant returns `true` iff the probe `generateResponse` succeeds
and its text contains `ok` case-insensitively; `OpenAIAdapter` returns
`true` iff the SDK probe call returns without throwing, regardless of
the returned text. -/
theorem testConnection_characterization_c7 :
    (∀ (provider : AIProvider) (apiKey : String) (models : List AIModel)
        (r : WireResponse),
        isReady provider apiKey models = true →
        (testConnection provider apiKey models (fun _ => Except.ok r)).1
          = ((r.status == 200) && contentTruthy r.content))
    ∧ (∀ (provider : AIProvider) (apiKey : String) (models : List AIModel)
        (e : JSError),
        (testConnection provider apiKey models (fun _ => Except.error e)).1 = false)
    ∧ (∀ (apiKey : String) (models : List AIModel) (r : OpenAIResponse),
        isReadyOpenAI apiKey models = true →
        (openAITestConnection apiKey models (fun _ => Except.ok r)).1 = true)
    ∧ (∀ (apiKey : String) (models : List AIModel) (e : JSError),
        (openAITestConnection apiKey models (fun _ => Except.error e)).1 = false)
    ∧ (∀ {ρ : Type} (provider : AIProvider) (apiKey : String)
        (m : AIModel) (rest : List AIModel)
        (transport : APIRequestParams → Except JSError ρ)
        (extractContent : ρ → Except JSError String)
        (extractTokenCounts : ρ → Except JSError TokenCount),
        isReady provider apiKey (m :: rest) = true →
        (testConnectionV1 provider apiKey (m :: rest) transport extractContent
            extractTokenCounts).1
          = ((generateResponse provider apiKey (m :: rest) transport extractContent
                extractTokenCounts "Return the word \x27OK\x27." m.apiName
                (some { rawResponse := some true, selectedText := some "" })).success
             && charsContain "ok".toList
                  (lowerChars (generateResponse provider apiKey (m :: rest) transport
                    extractContent extractTokenCounts "Return the word \x27OK\x27."
                    m.apiName
                    (some { rawResponse := some true,
                            selectedText := some "" })).data).data)) := by
  refine ⟨?_, ?_, ?_, ?_, ?_⟩
  · intro provider apiKey models r h
    simp [testConnection, h]
  · intro provider apiKey models e
    simp only [testConnection]
    split <;> simp
  · intro apiKey models r h
    simp [openAITestConnection, h]
  · intro apiKey models e
    simp only [openAITestConnection]
    split <;> simp
  · intro ρ provider apiKey m rest transport extractContent extractTokenCounts h
    simp [testConnectionV1, h, generateResponse]

/-- Witness for C7: each characterization instantiated concretely — a
200-status probe with content yields `true`; a throwing transport yields
`false`; an OpenAI probe that returns yields `true`; a throwing OpenAI
probe yields `false`; the early variant with a failing transport yields
`false`. -/
theorem testConnection_characterization_c7_witness :
    (testConnection AIProvider.openRouter "key" (AIModelMap AIProvider.openRouter)
        (fun _ => Except.ok { status := 200, content := some "OK" })).1 = true
    ∧ (testConnection AIProvider.openRouter "key" (AIModelMap AIProvider.openRouter)
        (fun _ => Except.error (JSError.err "refused"))).1 = false
    ∧ (openAITestConnection "key" openAIModels
        (fun _ => Except.ok { id := "r1", output_text := "pong" })).1 = true
    ∧ (openAITestConnection "key" openAIModels
        (fun _ => Except.error JSError.nonError)).1 = false
    ∧ (testConnectionV1 AIProvider.openRouter "key"
        (claude35Haiku :: [claude35Sonnet])
        (fun (_ : APIRequestParams) => Except.error (JSError.err "refused"))
        (fun (_ : Unit) => Except.ok "OK")
        (fun _ => Except.ok { input := 0, output := 0, total := 0 })).1 = false := by
  refine ⟨?_, ?_, ?_, ?_, ?_⟩
  · rw [testConnection_characterization_c7.1 AIProvider.openRouter "key"
      (AIModelMap AIProvider.openRouter)
      { status := 200, content := some "OK" } (by decide)]
    decide
  · exact testConnection_characterization_c7.2.1 AIProvider.openRouter "key"
      (AIModelMap AIProvider.openRouter) (JSError.err "refused")
  · exact testConnection_characterization_c7.2.2.1 "key" openAIModels
      { id := "r1", output_text := "pong" } (by decide)
  · exact testConnection_characterization_c7.2.2.2.1 "key" openAIModels
      JSError.nonError
  · rw [testConnection_characterization_c7.2.2.2.2 AIProvider.openRouter "key"
      claude35Haiku [claude35Sonnet]
      (fun (_ : APIRequestParams) => Except.error (JSError.err "refused"))
      (fun (_ : Unit) => Except.ok "OK")
      (fun _ => Except.ok { input := 0, output := 0, total := 0 }) (by decide)]
    decide

/-- Counterexample to C7 as stated: `OpenAIAdapter.testConnection`
returns `true` for a probe whose SDK call succeeds with an empty
`output_text`, although the probe yielded no non-empty text — the
claimed equivalence with "transport-succeeds and yields non-empty text"
fails on this input. -/
theorem openAITestConnection_empty_text_c7 :
    (openAITestConnection "key" openAIModels
        (fun _ => Except.ok { id := "r2", output_text := "" })).1 = true
    ∧ ({ id := "r2", output_text := "" } : OpenAIResponse).output_text = "" := by
  exact ⟨rfl, rfl⟩

/-- Claim C8: every `testConnection` variant on a non-ready adapter
returns `false` and performs zero transport calls. -/
theorem testConnection_notReady_c8 :
    (∀ (provider : AIProvider) (apiKey : String) (models : List AIModel)
        (transport : APIRequestParams → Except JSError WireResponse),
        isReady provider apiKey models = false →
        testConnection provider apiKey models transport = (false, 0))
    ∧ (∀ {ρ : Type} (provider : AIProvider) (apiKey : String) (models : List AIModel)
        (transport : APIRequestParams → Except JSError ρ)
        (extractContent : ρ → Except JSError String)
        (extractTokenCounts : ρ → Except JSError TokenCount),
        isReady provider apiKey models = false →
        testConnectionV1 provider apiKey models transport extractContent
          extractTokenCounts = (false, 0))
    ∧ (∀ (apiKey : String) (models : List AIModel)
        (create : OpenAIProbeRequest → Except JSError OpenAIResponse),
        isReadyOpenAI apiKey models = false →
        openAITestConnection apiKey models create = (false, 0)) := by
  refine ⟨?_, ?_, ?_⟩
  · intro provider apiKey models transport h
    simp [testConnection, h]
  · intro ρ provider apiKey models transport extractContent extractTokenCounts h
    simp [testConnectionV1, h]
  · intro apiKey models create h
    simp [openAITestConnection, h]

/-- Witness for C8: adapters with an empty API key (hosted providers)
return `false` with zero transport invocations from every variant. -/
theorem testConnection_notReady_c8_witness :
    testConnection AIProvider.openRouter "" (AIModelMap AIProvider.openRouter)
        (fun _ => Except.ok { status := 200, content := some "OK" }) = (false, 0)
    ∧ testConnectionV1 AIProvider.openRouter "" (AIModelMap AIProvider.openRouter)
        (fun (_ : APIRequestParams) => Except.ok ())
        (fun (_ : Unit) => Except.ok "OK")
        (fun _ => Except.ok { input := 0, output := 0, total := 0 }) = (false, 0)
    ∧ openAITestConnection "" openAIModels
        (fun _ => Except.ok { id := "r3", output_text := "OK" }) = (false, 0) := by
  refine ⟨?_, ?_, ?_⟩
  · exact testConnection_notReady_c8.1 AIProvider.openRouter ""
      (AIModelMap AIProvider.openRouter)
      (fun _ => Except.ok { status := 200, content := some "OK" }) (by decide)
  · exact testConnection_notReady_c8.2.1 AIProvider.openRouter ""
      (AIModelMap AIProvider.openRouter)
      (fun (_ : APIRequestParams) => Except.ok ())
      (fun (_ : Unit) => Except.ok "OK")
      (fun _ => Except.ok { input := 0, output := 0, total := 0 }) (by decide)
  · exact testConnection_notReady_c8.2.2 "" openAIModels
      (fun _ => Except.ok { id := "r3", output_text := "OK" }) (by decide)

end Revisionist
